import Mathlib

/-!
Shallow embedding of the tetrus game core (src/tet.rs, src/game.rs):
board representation, piece geometry, rotation with wall kicks, row
clearing, scoring, the 7-piece bag, and the timer helper.  Machine
integers (i8, usize) are embedded as Int and Nat; the `as usize` cast
of an i8 index is made explicit where the code relies on it.
-/

namespace Tetrus

/-- The seven piece types (enum TetType in src/tet.rs). -/
inductive TetType
  | I | J | L | O | S | T | Z
deriving DecidableEq

/-- Block offsets are (x, y) pairs of i8, embedded as Int. -/
abbrev Point := Int × Int

/-- TetType::blocks from src/tet.rs: the four spawn-orientation offsets. -/
def TetType.blocks : TetType → List Point
  | .I => [(0, 1), (1, 1), (2, 1), (3, 1)]
  | .J => [(0, 0), (0, 1), (1, 1), (2, 1)]
  | .L => [(0, 1), (1, 1), (2, 1), (2, 0)]
  | .O => [(0, 0), (0, 1), (1, 0), (1, 1)]
  | .S => [(0, 1), (1, 1), (1, 0), (2, 0)]
  | .T => [(1, 0), (0, 1), (1, 1), (2, 1)]
  | .Z => [(0, 0), (1, 0), (1, 1), (2, 1)]

/-- Rotation direction (enum RotationDir in src/tet.rs). -/
inductive RotationDir
  | Clockwise
  | CounterClockwise

/-- Rotation state (enum Rot in src/tet.rs), discriminants 0..3. -/
inductive Rot
  | Zero | R | Two | L
deriving DecidableEq

/-- Rot::c from src/tet.rs: the clockwise successor. -/
def Rot.c : Rot → Rot
  | .Zero => .R
  | .R    => .Two
  | .Two  => .L
  | .L    => .Zero

/-- Rot::cc from src/tet.rs: the counter-clockwise successor (present in
the source but never called by `rotate`). -/
def Rot.cc : Rot → Rot
  | .Zero => .L
  | .R    => .Zero
  | .Two  => .R
  | .L    => .Two

/-- The numeric discriminant of a rotation state (`self.rot as usize`). -/
def Rot.idx : Rot → Nat
  | .Zero => 0
  | .R    => 1
  | .Two  => 2
  | .L    => 3

/-- C_KICKS from src/tet.rs: clockwise kick table for non-I pieces,
4 rows of 5 (dx, dy) candidates, row selected by the current state. -/
def C_KICKS : List (List (Int × Int)) :=
  [ [(0, 0), (-1, 0), (-1, -1), (0,  2), (-1,  2)],
    [(0, 0), ( 1, 0), ( 1,  1), (0, -2), ( 1, -2)],
    [(0, 0), ( 1, 0), ( 1, -1), (0,  2), ( 1,  2)],
    [(0, 0), (-1, 0), (-1,  1), (0, -2), (-1, -2)] ]

/-- C_I_KICKS from src/tet.rs: clockwise kick table for the I piece. -/
def C_I_KICKS : List (List (Int × Int)) :=
  [ [(0, 0), (-2, 0), ( 1, 0), (-2,  1), ( 1, -2)],
    [(0, 0), (-1, 0), ( 2, 0), (-1, -2), ( 2,  1)],
    [(0, 0), ( 2, 0), (-1, 0), ( 2, -1), (-1,  2)],
    [(0, 0), ( 1, 0), (-2, 0), ( 1,  2), (-2, -1)] ]

/-- CC_KICKS from src/tet.rs: counter-clockwise kick table for non-I pieces. -/
def CC_KICKS : List (List (Int × Int)) :=
  [ [(0, 0), ( 1, 0), ( 1, -1), (0,  2), ( 1,  2)],
    [(0, 0), (-1, 0), (-1,  1), (0, -2), ( 1, -2)],
    [(0, 0), (-1, 0), (-1, -1), (0,  2), (-1,  2)],
    [(0, 0), ( 1, 0), ( 1,  1), (0, -2), ( 1, -2)] ]

/-- CC_I_KICKS from src/tet.rs: counter-clockwise kick table for the I piece. -/
def CC_I_KICKS : List (List (Int × Int)) :=
  [ [(0, 0), (-1, 0), ( 2, 0), (-1, -2), ( 2,  1)],
    [(0, 0), (-2, 0), ( 1, 0), (-2,  1), ( 1, -2)],
    [(0, 0), ( 1, 0), (-2, 0), ( 1,  2), (-2, -1)],
    [(0, 0), ( 2, 0), (-1, 0), ( 2, -1), (-1,  2)] ]

/-- Board width, pub const TILES_WIDE in src/game.rs. -/
def TILES_WIDE : Nat := 10

/-- Board height, pub const TILES_HIGH in src/game.rs. -/
def TILES_HIGH : Nat := 20

/-- An active piece (struct Tet in src/tet.rs). -/
structure Tet where
  tetType : TetType
  blocks : List Point
  pos : Point
  rot : Rot
deriving DecidableEq

/-- Tet::new from src/tet.rs. -/
def Tet.new (tetType : TetType) (pos : Point) : Tet :=
  { tetType := tetType, pos := pos, blocks := tetType.blocks, rot := .Zero }

/-- The board (struct Tets in src/game.rs): a 20 x 10 grid of optional
piece types, row-major, row 0 at the top. -/
structure Tets where
  tets : List (List (Option TetType))
deriving DecidableEq

/-- The `as usize` cast of an i8 value: two-complement reinterpretation
into a 64-bit unsigned index, so negative values become huge. -/
def i8ToUsize (i : Int) : Nat := (i % (2 ^ 64)).toNat

/-- Tets::default from src/game.rs: the all-empty board. -/
def Tets.empty : Tets :=
  { tets := List.replicate TILES_HIGH (List.replicate TILES_WIDE none) }

/-- Tets::at from src/game.rs: out-of-range rows or columns (after the
i8 to usize cast) fall through `get` to None. -/
def Tets.at (b : Tets) (row col : Int) : Option TetType :=
  match b.tets.get? (i8ToUsize row) with
  | none => none
  | some r =>
    match r.get? (i8ToUsize col) with
    | none => none
    | some v => v

/-- Tets::set from src/game.rs: write Some val at (row, col).  The source
indexes the arrays directly; here List.set is a no-op out of range, and
all callers in the claims stay in range. -/
def Tets.set (b : Tets) (row col : Int) (val : TetType) : Tets :=
  { tets := b.tets.set (i8ToUsize row)
      ((b.tets.getD (i8ToUsize row) []).set (i8ToUsize col) (some val)) }

/-- Tets::row_full from src/game.rs. -/
def Tets.rowFull (b : Tets) (row : Int) : Bool :=
  (b.tets.getD (i8ToUsize row) []).all (fun c => c.isSome)

/-- Tets::clear from src/game.rs: empty the given row, then for each row
index from row-1 down to 0 copy that row into the one below it.  Row 0
itself is never overwritten by the loop. -/
def Tets.clear (b : Tets) (row : Int) : Tets :=
  let r := i8ToUsize row
  let t1 := b.tets.set r (List.replicate TILES_WIDE none)
  { tets := (List.range r).reverse.foldl
      (fun acc i => acc.set (i + 1) (acc.getD i [])) t1 }

/-- Tet::fall from src/tet.rs: move down one row if every block stays
above the floor and lands on an empty cell; otherwise fail unchanged. -/
def Tet.fall (t : Tet) (b : Tets) : Bool × Tet :=
  if t.blocks.all (fun bl =>
      decide (t.pos.2 + bl.2 + 1 < (TILES_HIGH : Int)) &&
      !(b.at (t.pos.2 + bl.2 + 1) (t.pos.1 + bl.1)).isSome)
  then (true, { t with pos := (t.pos.1, t.pos.2 + 1) })
  else (false, t)

/-- Tet::move_left from src/tet.rs. -/
def Tet.moveLeft (t : Tet) (b : Tets) : Bool × Tet :=
  if t.blocks.all (fun bl =>
      !decide (t.pos.1 + bl.1 = 0) &&
      !(b.at (t.pos.2 + bl.2) (t.pos.1 + bl.1 - 1)).isSome)
  then (true, { t with pos := (t.pos.1 - 1, t.pos.2) })
  else (false, t)

/-- Tet::move_right from src/tet.rs. -/
def Tet.moveRight (t : Tet) (b : Tets) : Bool × Tet :=
  if t.blocks.all (fun bl =>
      decide (t.pos.1 + bl.1 + 1 < (TILES_WIDE : Int)) &&
      !(b.at (t.pos.2 + bl.2) (t.pos.1 + bl.1 + 1)).isSome)
  then (true, { t with pos := (t.pos.1 + 1, t.pos.2) })
  else (false, t)

/-- Tet::rotate_blocks from src/tet.rs: the fixed 90 degree rotation
formulas (4x4 pivot for I, 3x3 pivot otherwise), with the `.abs()`
embedded as Int.natAbs cast back to Int. -/
def Tet.rotateBlocks (t : Tet) (dir : RotationDir) : List Point :=
  match dir with
  | .Clockwise =>
    match t.tetType with
    | .I => t.blocks.map (fun bl => (((3 - bl.2).natAbs : Int), bl.1))
    | _  => t.blocks.map (fun bl => (((2 - bl.2).natAbs : Int), bl.1))
  | .CounterClockwise =>
    match t.tetType with
    | .I => t.blocks.map (fun bl => (bl.2, ((3 - bl.1).natAbs : Int)))
    | _  => t.blocks.map (fun bl => (bl.2, ((2 - bl.1).natAbs : Int)))

/-- The can_move closure inside Tet::rotate: every rotated block,
translated by the candidate (dx, dy), must be inside [0, 10) in x,
below no floor breach (y < 20, negative y allowed), and unoccupied. -/
def canMove (t : Tet) (b : Tets) (moved : List Point) (d : Int × Int) : Bool :=
  moved.all (fun bl =>
    let x := t.pos.1 + bl.1 + d.1
    let y := t.pos.2 + bl.2 + d.2
    decide (0 ≤ x) && decide (x < (TILES_WIDE : Int)) &&
    decide (y < (TILES_HIGH : Int)) && !(b.at y x).isSome)

/-- Selection of the kick table by direction and whether the piece is
the I type (the `tests` binding in Tet::rotate). -/
def kickTable (dir : RotationDir) (ty : TetType) : List (List (Int × Int)) :=
  match dir with
  | .Clockwise => if ty = .I then C_I_KICKS else C_KICKS
  | .CounterClockwise => if ty = .I then CC_I_KICKS else CC_KICKS

/-- The candidate search loop of Tet::rotate: the row of the kick table
indexed by the current rotation state, scanned in order for the first
candidate accepted by can_move. -/
def findKick (dir : RotationDir) (t : Tet) (b : Tets) : Option (Int × Int) :=
  ((kickTable dir t.tetType).getD t.rot.idx []).find?
    (fun d => canMove t b (t.rotateBlocks dir) d)

/-- Tet::rotate from src/tet.rs: O succeeds trivially; otherwise the
first accepted kick replaces the blocks with the rotated set, adds the
kick to the position, and calls Rot::c on the state (in both
directions); with no accepted kick the piece is unchanged. -/
def Tet.rotate (t : Tet) (dir : RotationDir) (b : Tets) : Bool × Tet :=
  if t.tetType = .O then (true, t)
  else
    match findKick dir t b with
    | some d => (true, { t with blocks := t.rotateBlocks dir,
                                pos := (t.pos.1 + d.1, t.pos.2 + d.2),
                                rot := t.rot.c })
    | none => (false, t)

/-- Game state (enum GameState in src/game.rs). -/
inductive GameState
  | Playing
  | Dead
deriving DecidableEq

/-- Fall mode (enum FallMode in src/game.rs). -/
inductive FallMode
  | Normal
  | SoftDrop
deriving DecidableEq

/-- The session state (struct Game in src/game.rs), restricted to the
fields read or written by the embedded operations; timers are embedded
as Nat milliseconds. -/
structure Game where
  state : GameState
  score : Nat
  lines : Nat
  tets : Tets
  currentTet : Tet
  hasTet : Bool
  fallMode : FallMode
  spawnTimer : Nat
deriving DecidableEq

/-- Game::SPAWN_INTERVAL, in milliseconds. -/
def SPAWN_INTERVAL : Nat := 0

/-- Game::level from src/game.rs. -/
def Game.level (g : Game) : Nat := min (1 + g.lines / 10) 20

/-- Game::add_score from src/game.rs: score increment keyed on the
clear count, using the current level. -/
def Game.addScore (g : Game) (lineClears : Nat) : Game :=
  { g with score := g.score +
      match lineClears with
      | 1 => g.level * 100
      | 2 => g.level * 300
      | 3 => g.level * 500
      | 4 => g.level * 800
      | _ => 0 }

/-- The block-writing loop at the top of Game::new_tet: merge the four
blocks of the current piece into the board. -/
def placeTet (t : Tet) (b : Tets) : Tets :=
  t.blocks.foldl
    (fun acc bl => acc.set (t.pos.2 + bl.2) (t.pos.1 + bl.1) t.tetType) b

/-- The clear-counting loop of Game::new_tet: scan rows 0..20 in order,
clearing each full row as it is found and counting the clears. -/
def clearFullRows (b : Tets) : Tets × Nat :=
  (List.range TILES_HIGH).foldl
    (fun acc row =>
      if acc.1.rowFull (row : Int) then (acc.1.clear (row : Int), acc.2 + 1)
      else acc)
    (b, 0)

/-- Game::new_tet from src/game.rs: lock the current piece, clear and
count full rows, add score before updating lines, drop the active flag
and arm the spawn timer. -/
def Game.newTet (g : Game) : Game :=
  let b1 := placeTet g.currentTet g.tets
  let p := clearFullRows b1
  let g1 := { g with tets := p.1 }
  let g2 :=
    if p.2 > 0 then
      let ga := g1.addScore p.2
      { ga with lines := ga.lines + p.2 }
    else g1
  { g2 with hasTet := false, spawnTimer := SPAWN_INTERVAL }

/-- Game::spawn_tet from src/game.rs: place a fresh piece at (3, 0); if
any block overlaps an occupied cell, set the state to Dead and drop the
active flag — but the final line sets the active flag back to true
unconditionally. -/
def Game.spawnTet (g : Game) (tetType : TetType) : Game :=
  let t := Tet.new tetType (3, 0)
  let g1 := { g with currentTet := t }
  let g2 :=
    if t.blocks.any (fun bl =>
        (g1.tets.at (t.pos.2 + bl.2) (t.pos.1 + bl.1)).isSome)
    then { g1 with state := .Dead, hasTet := false }
    else g1
  { g2 with hasTet := true }

/-- Timer outcome (enum TimerState in src/game.rs). -/
inductive TimerState
  | Ticking (d : Nat)
  | Done
deriving DecidableEq

/-- The decrement helper from src/game.rs, on durations embedded as Nat:
Done when lhs < rhs or the difference is zero, otherwise Ticking with
the difference.  The short-circuit guard of the source means the
subtraction is only reached with lhs at least rhs; Nat subtraction
agrees with Duration subtraction on that domain. -/
def decrement (lhs rhs : Nat) : TimerState :=
  if lhs < rhs ∨ lhs - rhs = 0 then .Done else .Ticking (lhs - rhs)

/-- The NORMAL_INTERVALS table of src/game.rs: `(0..21).map(formula)`,
one entry per index 0..20.  The per-level millisecond value is computed
with f32 arithmetic in the source; the claims concern only the shape of
the table, so the formula is abstracted as a function parameter. -/
def NORMAL_INTERVALS (formula : Nat → Nat) : List Nat :=
  (List.range 21).map formula

/-- Game::fall_interval from src/game.rs, with the table lookup made
fallible to reason about its bounds (the source indexes directly). -/
def Game.fallInterval (formula : Nat → Nat) (g : Game) : Option Nat :=
  match g.fallMode with
  | .Normal => (NORMAL_INTERVALS formula).get? g.level
  | .SoftDrop => some 100

/-- The fixed 7-type array built inside TetType::batch before it is
shuffled. -/
def baseBatch : List TetType := [.I, .J, .L, .O, .S, .T, .Z]

/-- The bag portion of the session state: next_batch ([TetType; 7]) and
next_tet, which the update loop keeps in 0..6 via `(next_tet + 1) % 7`. -/
structure BagState where
  nextBatch : Fin 7 → TetType
  nextTet : Fin 7

/-- The ordered read-out of a batch array. -/
def batchList (batch : Fin 7 → TetType) : List TetType :=
  (List.finRange 7).map batch

/-- One draw, from the spawn branch of Game::update in src/game.rs:
take next_batch[next_tet], advance next_tet by one mod 7, and exactly
when it wraps to 0, install a freshly shuffled batch (TetType::batch
shuffles baseBatch via the external rand crate; the fresh batch is a
parameter here). -/
def drawStep (fresh : Fin 7 → TetType) (s : BagState) : TetType × BagState :=
  let v := s.nextBatch s.nextTet
  let i := s.nextTet + 1
  (v, { nextBatch := if i = 0 then fresh else s.nextBatch, nextTet := i })

/-- n consecutive draws, collecting the drawn types and the final state. -/
def drawN (fresh : Fin 7 → TetType) : Nat → BagState → List TetType × BagState
  | 0, s => ([], s)
  | n + 1, s =>
    let vs := drawStep fresh s
    let rest := drawN fresh n vs.2
    (vs.1 :: rest.1, rest.2)

/-- The per-clear-count score table as the spec states it:
1 clear is 100, 2 is 300, 3 is 500, 4 is 800, anything else 0 (to be
multiplied by the level). -/
def clearPoints : Nat → Nat
  | 1 => 100
  | 2 => 300
  | 3 => 500
  | 4 => 800
  | _ => 0

/-- One rotation step on the empty board, keeping only the piece. -/
def rotStep (dir : RotationDir) (t : Tet) : Tet :=
  (t.rotate dir Tets.empty).2

/-- The piece accepts the first kick candidate (0, 0) on the empty
board: the candidate search of rotate returns exactly (0, 0). -/
def accepts00 (dir : RotationDir) (t : Tet) : Prop :=
  findKick dir t Tets.empty = some (0, 0)

/-- A completely occupied board, for concrete check inputs. -/
def fullTets : Tets :=
  { tets := List.replicate TILES_HIGH (List.replicate TILES_WIDE (some .I)) }

/-- A T piece in open space, for concrete check inputs. -/
def tetT35 : Tet := Tet.new .T (3, 5)

/-- A J piece in open space, for concrete check inputs. -/
def tetJ35 : Tet := Tet.new .J (3, 5)

/-- A board whose row 0 holds one block at column 0 and whose row 1 is
completely full, all other rows empty. -/
def boardTopBlock : Tets :=
  { tets := ((some .I) :: List.replicate 9 none)
      :: List.replicate 10 (some .J)
      :: List.replicate 18 (List.replicate 10 none) }

/-- A session whose board is completely full, about to attempt a spawn. -/
def gameFullBoard : Game :=
  { state := .Playing, score := 0, lines := 0, tets := fullTets,
    currentTet := Tet.new .I (3, 0), hasTet := false,
    fallMode := .Normal, spawnTimer := 0 }

/-- A board whose rows 18 and 19 are filled in columns 2..9 and empty
in columns 0 and 1, all other rows empty. -/
def boardTwoGaps : Tets :=
  { tets := List.replicate 18 (List.replicate 10 none) ++
      [ List.replicate 2 none ++ List.replicate 8 (some .I),
        List.replicate 2 none ++ List.replicate 8 (some .I) ] }

/-- A session at 20 lines (level 3) whose O piece sits over the two
gaps of boardTwoGaps, so locking it completes exactly rows 18 and 19. -/
def gameTwoClears : Game :=
  { state := .Playing, score := 0, lines := 20, tets := boardTwoGaps,
    currentTet := Tet.new .O (0, 18), hasTet := true,
    fallMode := .Normal, spawnTimer := 0 }

/-- A concrete batch array in base order, for concrete check inputs. -/
def bagFunW : Fin 7 → TetType := fun i => baseBatch.getD i.val .I

/-- A session record with the normal fall mode, for concrete check
inputs. -/
def gameNormal : Game :=
  { state := .Playing, score := 0, lines := 0, tets := .empty,
    currentTet := Tet.new .I (3, 0), hasTet := true,
    fallMode := .Normal, spawnTimer := 0 }

/-! ## Helper lemmas -/

/-- Unfolding of a successful rotation: with a non-O piece and an
accepted kick d, rotate returns success with the rotated blocks, the
kicked position, and the Rot::c successor state. -/
theorem rotate_accept_eq (dir : RotationDir) (t : Tet) (b : Tets) (d : Int × Int)
    (hO : ¬ t.tetType = .O) (h : findKick dir t b = some d) :
    t.rotate dir b = (true, { t with
        blocks := t.rotateBlocks dir,
        pos := (t.pos.1 + d.1, t.pos.2 + d.2),
        rot := t.rot.c }) := by
  unfold Tet.rotate
  rw [if_neg hO, h]

/-- A rotation step that accepts the kick (0, 0) keeps the position. -/
theorem rotStep_eq (dir : RotationDir) (t : Tet) (hO : ¬ t.tetType = .O)
    (h : accepts00 dir t) :
    rotStep dir t = { t with
      blocks := t.rotateBlocks dir,
      pos := (t.pos.1 + 0, t.pos.2 + 0),
      rot := t.rot.c } := by
  unfold rotStep
  rw [rotate_accept_eq dir t Tets.empty (0, 0) hO h]

/-! ## Claim theorems -/

/-- C9: decrement(lhs, rhs) returns Done exactly when lhs is at most
rhs, and otherwise returns Ticking(lhs - rhs) with a positive
remainder, so the guarded subtraction never underflows. -/
theorem c9_decrement (l r : Nat) :
    (decrement l r = .Done ↔ l ≤ r) ∧
    (r < l → decrement l r = .Ticking (l - r) ∧ 0 < l - r) := by
  refine ⟨?_, ?_⟩
  · unfold decrement
    split
    · simp
      omega
    · simp
      omega
  · intro h
    unfold decrement
    split
    · omega
    · exact ⟨rfl, by omega⟩

/-- C9 witness at lhs = 5, rhs = 3. -/
theorem c9_decrement_witness :
    decrement 5 3 = .Ticking (5 - 3) ∧ 0 < 5 - 3 :=
  (c9_decrement 5 3).2 (by decide)

/-- C10: the level always lies in 1..20, and in Normal mode the fall
interval looks up index level of the 21-entry interval table in
bounds, so the lookup cannot fail for any lines count. -/
theorem c10_level_bounds (formula : Nat → Nat) (g : Game)
    (h : g.fallMode = .Normal) :
    1 ≤ g.level ∧ g.level ≤ 20 ∧
    (NORMAL_INTERVALS formula).length = 21 ∧
    g.fallInterval formula = some (formula g.level) := by
  have hlev : g.level ≤ 20 := by
    unfold Game.level
    omega
  refine ⟨?_, hlev, ?_, ?_⟩
  · unfold Game.level
    omega
  · simp [NORMAL_INTERVALS]
  · unfold Game.fallInterval
    rw [h]
    unfold NORMAL_INTERVALS
    rw [List.get?_map, List.get?_range (by omega)]
    rfl

/-- C10 witness at a concrete session and the identity formula. -/
theorem c10_level_bounds_witness :
    1 ≤ gameNormal.level ∧ gameNormal.level ≤ 20 ∧
    (NORMAL_INTERVALS id).length = 21 ∧
    gameNormal.fallInterval id = some (id gameNormal.level) :=
  c10_level_bounds id gameNormal rfl

/-- C4: whenever fall, move_left, move_right or rotate returns false,
the piece (blocks, position and rotation state) is left unchanged. -/
theorem c4_reject_leaves_unchanged (t : Tet) (b : Tets) :
    ((t.fall b).1 = false → (t.fall b).2 = t) ∧
    ((t.moveLeft b).1 = false → (t.moveLeft b).2 = t) ∧
    ((t.moveRight b).1 = false → (t.moveRight b).2 = t) ∧
    (∀ dir, (t.rotate dir b).1 = false → (t.rotate dir b).2 = t) := by
  refine ⟨?_, ?_, ?_, ?_⟩
  · unfold Tet.fall
    split
    · intro h
      simp at h
    · intro _
      rfl
  · unfold Tet.moveLeft
    split
    · intro h
      simp at h
    · intro _
      rfl
  · unfold Tet.moveRight
    split
    · intro h
      simp at h
    · intro _
      rfl
  · intro dir
    unfold Tet.rotate
    split
    · intro h
      simp at h
    · split
      · intro h
        simp at h
      · intro _
        rfl

/-- C4 witness: a T piece boxed in by a completely full board fails to
fall, move either way, or rotate in either direction, and is unchanged
each time. -/
theorem c4_reject_leaves_unchanged_witness :
    (tetT35.fall fullTets).2 = tetT35 ∧
    (tetT35.moveLeft fullTets).2 = tetT35 ∧
    (tetT35.moveRight fullTets).2 = tetT35 ∧
    (tetT35.rotate .Clockwise fullTets).2 = tetT35 ∧
    (tetT35.rotate .CounterClockwise fullTets).2 = tetT35 :=
  ⟨(c4_reject_leaves_unchanged tetT35 fullTets).1 (by decide),
   (c4_reject_leaves_unchanged tetT35 fullTets).2.1 (by decide),
   (c4_reject_leaves_unchanged tetT35 fullTets).2.2.1 (by decide),
   (c4_reject_leaves_unchanged tetT35 fullTets).2.2.2 .Clockwise (by decide),
   (c4_reject_leaves_unchanged tetT35 fullTets).2.2.2 .CounterClockwise (by decide)⟩

/-- C1 counterexample: a counter-clockwise rotation that accepts a kick
advances the rotation state with Rot::c, from Zero to R, not to L as
the stated -1 mod 4 cycle (Rot::cc, present but unused in the source)
would give. -/
theorem c1_ccw_counterexample :
    (tetT35.rotate .CounterClockwise Tets.empty).1 = true ∧
    tetT35.rot = .Zero ∧
    Rot.cc .Zero = .L ∧
    (tetT35.rotate .CounterClockwise Tets.empty).2.rot = .R ∧
    Rot.R ≠ Rot.L := by
  decide

/-- C1 (amended): when rotate accepts a kick candidate it replaces the
blocks with the rotated offsets, adds the accepted (dx, dy) to the
position, and advances the rotation state by +1 mod 4 through the
cycle Zero to R to Two to L to Zero for BOTH directions, with the kick
candidate row selected by the current rotation state. -/
theorem c1_rotate_accept_amended (dir : RotationDir) (t : Tet) (b : Tets)
    (d : Int × Int) (hO : ¬ t.tetType = .O) (h : findKick dir t b = some d) :
    t.rotate dir b = (true, { t with
        blocks := t.rotateBlocks dir,
        pos := (t.pos.1 + d.1, t.pos.2 + d.2),
        rot := t.rot.c }) ∧
    t.rot.c.idx = (t.rot.idx + 1) % 4 ∧
    Rot.c .Zero = .R ∧ Rot.c .R = .Two ∧ Rot.c .Two = .L ∧ Rot.c .L = .Zero ∧
    findKick dir t b =
      ((kickTable dir t.tetType).getD t.rot.idx []).find?
        (fun k => canMove t b (t.rotateBlocks dir) k) := by
  refine ⟨rotate_accept_eq dir t b d hO h, ?_, rfl, rfl, rfl, rfl, rfl⟩
  cases t.rot <;> rfl

/-- C1 amended witness: a J piece rotating clockwise in open space
accepts the kick (0, 0). -/
theorem c1_rotate_accept_amended_witness :
    tetJ35.rotate .Clockwise Tets.empty = (true, { tetJ35 with
        blocks := tetJ35.rotateBlocks .Clockwise,
        pos := (tetJ35.pos.1 + (0 : Int), tetJ35.pos.2 + (0 : Int)),
        rot := tetJ35.rot.c }) ∧
    tetJ35.rot.c.idx = (tetJ35.rot.idx + 1) % 4 ∧
    Rot.c .Zero = .R ∧ Rot.c .R = .Two ∧ Rot.c .Two = .L ∧ Rot.c .L = .Zero ∧
    findKick .Clockwise tetJ35 Tets.empty =
      ((kickTable .Clockwise tetJ35.tetType).getD tetJ35.rot.idx []).find?
        (fun k => canMove tetJ35 Tets.empty (tetJ35.rotateBlocks .Clockwise) k) :=
  c1_rotate_accept_amended .Clockwise tetJ35 Tets.empty (0, 0)
    (by decide) (by decide)

/-- C2 failing input: row 1 of boardTopBlock is full; clearing it ought
to leave the top row empty, but the code leaves the old row 0 content
in place at row 0 (while also copying it down into row 1). -/
theorem c2_clear_top_row_bug :
    boardTopBlock.rowFull 1 = true ∧
    (boardTopBlock.clear 1).at 0 0 = some .I ∧
    (boardTopBlock.clear 1).at 1 0 = some .I := by
  decide

/-- C3 failing input: spawning onto a full board sets the state to Dead
and leaves the board untouched, but the unconditional final assignment
of spawn_tet leaves the has-active-piece flag true, not false. -/
theorem c3_spawn_dead_bug :
    (gameFullBoard.spawnTet .T).state = .Dead ∧
    (gameFullBoard.spawnTet .T).hasTet = true ∧
    (gameFullBoard.spawnTet .T).tets = gameFullBoard.tets := by
  decide

/-- C5: locking a piece that completes n rows (1 to 4) adds exactly
level * clearPoints n to the score, where the level is computed from
the lines count before the n cleared rows are added to it; the lines
count then grows by n.  This holds for every session state, hence for
any choice of the completed rows. -/
theorem c5_scoring (g : Game) (n : Nat)
    (hn : (clearFullRows (placeTet g.currentTet g.tets)).2 = n)
    (h1 : 1 ≤ n) (h4 : n ≤ 4) :
    g.newTet.score = g.score + g.level * clearPoints n ∧
    g.level = min (1 + g.lines / 10) 20 ∧
    g.newTet.lines = g.lines + n := by
  refine ⟨?_, rfl, ?_⟩ <;>
    interval_cases n <;>
      simp [Game.newTet, Game.addScore, Game.level, clearPoints, hn]

set_option maxRecDepth 4000 in
/-- C5 witness: at 20 lines (level 3) an O piece locks completing
exactly rows 18 and 19, and the score grows by 3 * 300 = 900. -/
theorem c5_scoring_witness :
    (clearFullRows (placeTet gameTwoClears.currentTet gameTwoClears.tets)).2 = 2 ∧
    (gameTwoClears.newTet.score =
        gameTwoClears.score + gameTwoClears.level * clearPoints 2 ∧
      gameTwoClears.level = min (1 + gameTwoClears.lines / 10) 20 ∧
      gameTwoClears.newTet.lines = gameTwoClears.lines + 2) :=
  ⟨by decide, c5_scoring gameTwoClears 2 (by decide) (by decide) (by decide)⟩

/-- C6: any shuffled batch is a permutation of the 7 piece types (each
appearing exactly once), and starting from a refill boundary
(next_tet = 0 over a freshly shuffled batch) the next 7 draws read the
whole batch in order, so every type is drawn exactly once; the refill
installs the fresh batch exactly when the index wraps back to 0. -/
theorem c6_bag_fairness (b fresh : Fin 7 → TetType) (s : BagState)
    (hperm : (batchList b).Perm baseBatch)
    (h0 : s.nextTet = 0) (hb : s.nextBatch = b) :
    (∀ t, (batchList b).count t = 1) ∧
    (drawN fresh 7 s).1 = batchList b ∧
    (∀ t, (drawN fresh 7 s).1.count t = 1) ∧
    (drawN fresh 7 s).2.nextTet = 0 ∧
    (drawN fresh 7 s).2.nextBatch = fresh := by
  have hcount : ∀ t, (batchList b).count t = 1 := by
    intro t
    rw [hperm.count_eq]
    cases t <;> rfl
  obtain ⟨nb, nt⟩ := s
  simp only at h0 hb
  subst h0
  subst hb
  exact ⟨hcount, rfl, fun t => hcount t, rfl, rfl⟩

/-- C6 witness at the base-order batch. -/
theorem c6_bag_fairness_witness :
    (∀ t, (batchList bagFunW).count t = 1) ∧
    (drawN bagFunW 7 ⟨bagFunW, 0⟩).1 = batchList bagFunW ∧
    (∀ t, (drawN bagFunW 7 ⟨bagFunW, 0⟩).1.count t = 1) ∧
    (drawN bagFunW 7 ⟨bagFunW, 0⟩).2.nextTet = 0 ∧
    (drawN bagFunW 7 ⟨bagFunW, 0⟩).2.nextBatch = bagFunW :=
  c6_bag_fairness bagFunW bagFunW ⟨bagFunW, 0⟩ (by decide) rfl rfl

/-- C8: for every well-formed 20 x 10 board and every i8 index pair,
at(row, col) returns none whenever the row or the column is out of the
board range (negative indices included, via the wrapping i8-to-usize
cast), and for in-range indices it returns the stored cell content. -/
theorem c8_at_total (b : Tets) (row col : Int)
    (hWF : b.tets.length = 20 ∧ ∀ r ∈ b.tets, r.length = 10)
    (hrow : -128 ≤ row ∧ row ≤ 127) (hcol : -128 ≤ col ∧ col ≤ 127) :
    ((row < 0 ∨ 20 ≤ row ∨ col < 0 ∨ 10 ≤ col) → b.at row col = none) ∧
    (0 ≤ row → row < 20 → 0 ≤ col → col < 10 →
      b.at row col = (b.tets.getD row.toNat []).getD col.toNat none) := by
  obtain ⟨hlen, hrows⟩ := hWF
  constructor
  · intro hout
    unfold Tets.at
    by_cases hrbad : row < 0 ∨ 20 ≤ row
    · have hge : b.tets.length ≤ i8ToUsize row := by
        unfold i8ToUsize
        omega
      rw [List.get?_eq_none.mpr hge]
    · have hcbad : col < 0 ∨ 10 ≤ col := by
        rcases hout with h | h | h | h
        · exact absurd (Or.inl h) hrbad
        · exact absurd (Or.inr h) hrbad
        · exact Or.inl h
        · exact Or.inr h
      cases hg : b.tets.get? (i8ToUsize row) with
      | none => rfl
      | some r =>
        have hrlen : r.length = 10 := hrows r (List.get?_mem hg)
        have hge : r.length ≤ i8ToUsize col := by
          unfold i8ToUsize
          omega
        dsimp only
        rw [List.get?_eq_none.mpr hge]
  · intro h0 h1 h2 h3
    unfold Tets.at
    have hr : i8ToUsize row = row.toNat := by
      unfold i8ToUsize
      omega
    have hc : i8ToUsize col = col.toNat := by
      unfold i8ToUsize
      omega
    rw [hr, hc]
    have hrlt : row.toNat < b.tets.length := by omega
    rw [List.get?_eq_get hrlt]
    have hmem : b.tets.get ⟨row.toNat, hrlt⟩ ∈ b.tets := b.tets.get_mem _ _
    have hclt : col.toNat < (b.tets.get ⟨row.toNat, hrlt⟩).length := by
      rw [hrows _ hmem]
      omega
    dsimp only
    rw [List.get?_eq_get hclt]
    simp only [List.getD_eq_get?, List.get?_eq_get hrlt, List.get?_eq_get hclt,
      Option.getD_some, List.get_eq_getElem]
    rw [List.get?_eq_get (show col.toNat < b.tets[row.toNat].length from hclt)]
    simp

/-- C8 witness: on the empty board, a negative index pair reads none,
and an in-range pair reads the stored cell. -/
theorem c8_at_total_witness :
    Tets.empty.at (-1) 3 = none ∧
    (Tets.empty.at 2 2 =
      (Tets.empty.tets.getD (Int.toNat 2) []).getD (Int.toNat 2) none) :=
  ⟨(c8_at_total Tets.empty (-1) 3 (by decide) (by decide) (by decide)).1
      (by decide),
   (c8_at_total Tets.empty 2 2 (by decide) (by decide) (by decide)).2
      (by decide) (by decide) (by decide) (by decide)⟩

/-- C7: for any piece type spawned at any position on the empty board,
if each of four successive rotations in the same direction accepts the
first kick candidate (0, 0), the piece returns to its original block
offsets, rotation state and position. -/
theorem c7_four_rotations (ty : TetType) (px py : Int) (dir : RotationDir)
    (h0 : accepts00 dir (Tet.new ty (px, py)))
    (h1 : accepts00 dir (rotStep dir (Tet.new ty (px, py))))
    (h2 : accepts00 dir (rotStep dir (rotStep dir (Tet.new ty (px, py)))))
    (h3 : accepts00 dir
      (rotStep dir (rotStep dir (rotStep dir (Tet.new ty (px, py)))))) :
    rotStep dir (rotStep dir (rotStep dir (rotStep dir (Tet.new ty (px, py)))))
      = Tet.new ty (px, py) := by
  cases ty <;> cases dir
  case O.Clockwise => rfl
  case O.CounterClockwise => rfl
  all_goals
    (rw [rotStep_eq _ _ (by simp [Tet.new]) h0] at h1 h2 h3 ⊢
     simp only [Tet.new, Tet.rotateBlocks, TetType.blocks, Rot.c,
       List.map_cons, List.map_nil, Int.add_zero] at h1 h2 h3 ⊢
     try norm_num at h1 h2 h3 ⊢
     rw [rotStep_eq _ _ (by simp) h1] at h2 h3 ⊢
     simp only [Tet.rotateBlocks, Rot.c, List.map_cons, List.map_nil,
       Int.add_zero] at h2 h3 ⊢
     try norm_num at h2 h3 ⊢
     rw [rotStep_eq _ _ (by simp) h2] at h3 ⊢
     simp only [Tet.rotateBlocks, Rot.c, List.map_cons, List.map_nil,
       Int.add_zero] at h3 ⊢
     try norm_num at h3 ⊢
     rw [rotStep_eq _ _ (by simp) h3]
     simp [Tet.new, Tet.rotateBlocks, Rot.c]
     try norm_num)

/-- C7 witness: a T piece at (3, 5) on the empty board accepts the
(0, 0) kick at each of four clockwise rotations and returns to its
spawn configuration. -/
theorem c7_four_rotations_witness :
    rotStep .Clockwise (rotStep .Clockwise (rotStep .Clockwise
      (rotStep .Clockwise (Tet.new .T (3, 5))))) = Tet.new .T (3, 5) :=
  c7_four_rotations .T 3 5 .Clockwise
    (by unfold accepts00; decide) (by unfold accepts00; decide)
    (by unfold accepts00; decide) (by unfold accepts00; decide)

end Tetrus
